import Mathlib

/-!
Verification development for the vibe-brancher repository.

Shallow embedding conventions:
* Python floats are modelled as exact rationals (all constants in the source
  are short decimal literals, and no claim depends on rounding at the
  comparison thresholds).
* Readings of the repository (porcelain status, numstat output, timestamps)
  are inputs to the embedded functions; elapsed wall-clock quantities
  (minutes since the last commit, branch age in hours) are passed as already
  computed differences, mirroring datetime.now() - t in the source.
* Git commands that can fail raise RuntimeError in the source; this is
  modelled with Except / Bool success flags on an explicit oracle, and the
  mutating commands a function issues are collected in a trace list.
-/

/-- Thresholds block of the configuration (vibe_brancher.py, _load_config). -/
structure Thresholds where
  files_changed : ℚ
  lines_added : ℚ
  lines_removed : ℚ
  time_minutes : ℚ
  complexity_score : ℚ
deriving Repr, DecidableEq

/-- Weights block of the configuration (vibe_brancher.py, _load_config). -/
structure Weights where
  files_changed : ℚ
  lines_changed : ℚ
  time_factor : ℚ
  complexity : ℚ
  file_types : ℚ
deriving Repr, DecidableEq

/-- Branch-naming block of the configuration. The source key "prefix" is
renamed to pfx here. -/
structure BranchNaming where
  pfx : String
  separator : String
  include_timestamp : Bool
deriving Repr, DecidableEq

/-- Whole configuration (vibe_brancher.py, _load_config). -/
structure Config where
  thresholds : Thresholds
  weights : Weights
  file_type_weights : List (String × ℚ)
  branch_naming : BranchNaming
deriving Repr, DecidableEq

/-- Default configuration, verbatim from _load_config (vibe_brancher.py
lines 30-56). -/
def defaultConfig : Config :=
  { thresholds :=
      { files_changed := 5
        lines_added := 50
        lines_removed := 30
        time_minutes := 30
        complexity_score := 7 }
    weights :=
      { files_changed := 3/10
        lines_changed := 1/4
        time_factor := 1/5
        complexity := 3/20
        file_types := 1/10 }
    file_type_weights :=
      [(".py", 1), (".js", 4/5), (".ts", 9/10), (".java", 1),
       (".cpp", 1), (".c", 1), (".go", 1), (".rs", 1),
       (".html", 3/10), (".css", 3/10), (".json", 1/5),
       (".md", 1/10), (".txt", 1/10)]
    branch_naming :=
      { pfx := "feature"
        separator := "/"
        include_timestamp := false } }

/-- Working-tree status as produced by _get_git_status: five lists of path
strings. -/
structure Files where
  modified : List String
  added : List String
  deleted : List String
  renamed : List String
  untracked : List String
deriving Repr, DecidableEq

/-- One side (staged or unstaged) of the diff statistics. Counts are Int
because the numstat parser in the source adds whatever int() returns. -/
structure DiffRecord where
  files : Int
  insertions : Int
  deletions : Int
deriving Repr, DecidableEq

/-- Diff statistics returned by _get_diff_stats. -/
structure DiffStats where
  staged : DiffRecord
  unstaged : DiffRecord
deriving Repr, DecidableEq

/-- Characters of the last path component, as pathlib computes the name of
a path: everything after the last slash. -/
def lastComponentChars (cs : List Char) : List Char :=
  cs.foldl (fun acc c => if c = '/' then [] else acc ++ [c]) []

/-- Last path component of a path string. -/
def pyName (p : String) : String :=
  String.mk (lastComponentChars p.toList)

/-- Extension of a bare file name, following pathlib: the part of the name
from its last dot on, empty when that dot is the first or last character of
the name or absent. -/
def pySuffixOfName (name : String) : String :=
  let cs := name.toList
  match cs.reverse.findIdx? (· = '.') with
  | none => ""
  | some k =>
      if 0 < k ∧ k < cs.length - 1 then String.mk (cs.drop (cs.length - 1 - k))
      else ""

/-- Path(filename).suffix from the source. -/
def pySuffix (p : String) : String :=
  pySuffixOfName (pyName p)

/-- Path(filename).stem from the source: name with its suffix removed. -/
def pyStem (p : String) : String :=
  let name := (pyName p).toList
  String.mk (name.take (name.length - (pySuffixOfName (String.mk name)).length))

/-- Lowercasing as str.lower, modelled per character for the ASCII range the
repository uses. -/
def pyLower (s : String) : String :=
  String.mk (s.toList.map Char.toLower)

/-- Weight of a file extension: configured value, default 0.5 for unknown
extensions (vibe_brancher.py line 193). -/
def fileTypeWeight (cfg : Config) (ext : String) : ℚ :=
  (List.lookup ext cfg.file_type_weights).getD (1/2)

/-- Files considered by the scoring functions: modified + added + untracked,
in that order (vibe_brancher.py line 186). -/
def allScoredFiles (files : Files) : List String :=
  files.modified ++ files.added ++ files.untracked

/-- Number of changed files used throughout the analysis (modified + added +
untracked). -/
def totalChangedFiles (files : Files) : ℕ :=
  files.modified.length + files.added.length + files.untracked.length

/-- Embeds _calculate_file_type_complexity (vibe_brancher.py lines 184-196):
the mean of per-file extension weights over modified+added+untracked files,
0 for the empty set. Note: the result is not clamped. -/
def calculate_file_type_complexity (cfg : Config) (files : Files) : ℚ :=
  let all_files := allScoredFiles files
  if all_files.length = 0 then 0
  else (all_files.map (fun f => fileTypeWeight cfg (pyLower (pySuffix f)))).sum
        / all_files.length

/-- Embeds _calculate_complexity_score (vibe_brancher.py lines 198-220). -/
def calculate_complexity_score (cfg : Config) (files : Files)
    (ds : DiffStats) : ℚ :=
  let total_files : ℚ := totalChangedFiles files
  let total_insertions : ℚ := ds.staged.insertions + ds.unstaged.insertions
  let total_deletions : ℚ := ds.staged.deletions + ds.unstaged.deletions
  let file_complexity := min (total_files / 10) 1
  let line_complexity := min ((total_insertions + total_deletions) / 100) 1
  let type_complexity := calculate_file_type_complexity cfg files
  (file_complexity * (2/5) + line_complexity * (2/5) + type_complexity * (1/5)) * 10

/-- Embeds _calculate_time_factor (vibe_brancher.py lines 222-233).
minutesSince is none when the repository has no commit yet. -/
def calculate_time_factor (cfg : Config) (minutesSince : Option ℚ) : ℚ :=
  match minutesSince with
  | none => 1
  | some minutes => min (minutes / cfg.thresholds.time_minutes) 1

/-- Factor block of the analysis result (vibe_brancher.py lines 267-276). -/
structure AnalysisFactors where
  files_changed : ℕ
  file_factor : ℚ
  lines_added : Int
  lines_removed : Int
  line_factor : ℚ
  time_factor : ℚ
  complexity_score : ℚ
  complexity_factor : ℚ
deriving Repr, DecidableEq

/-- Result of analyze_branch_need (vibe_brancher.py lines 264-279). -/
structure AnalysisResult where
  should_branch : Bool
  branch_score : ℚ
  factors : AnalysisFactors
  files : Files
  diff_stats : DiffStats
deriving Repr, DecidableEq

/-- Embeds analyze_branch_need (vibe_brancher.py lines 235-279). The status,
diff statistics and elapsed minutes since the last commit are the values the
source reads from git at the start of the call. -/
def analyze_branch_need (cfg : Config) (files : Files) (ds : DiffStats)
    (minutesSince : Option ℚ) : AnalysisResult :=
  let total_files : ℕ := totalChangedFiles files
  let total_insertions : Int := ds.staged.insertions + ds.unstaged.insertions
  let total_deletions : Int := ds.staged.deletions + ds.unstaged.deletions
  let file_factor := min ((total_files : ℚ) / cfg.thresholds.files_changed) 1
  let line_factor := min (((total_insertions : ℚ) + (total_deletions : ℚ)) /
      (cfg.thresholds.lines_added + cfg.thresholds.lines_removed)) 1
  let time_factor := calculate_time_factor cfg minutesSince
  let complexity := calculate_complexity_score cfg files ds
  let complexity_factor := min (complexity / cfg.thresholds.complexity_score) 1
  let w := cfg.weights
  let branch_score :=
    file_factor * w.files_changed +
    line_factor * w.lines_changed +
    time_factor * w.time_factor +
    complexity_factor * w.complexity +
    calculate_file_type_complexity cfg files * w.file_types
  let should_branch := decide ((6/10 : ℚ) ≤ branch_score)
  { should_branch := should_branch
    branch_score := branch_score
    factors :=
      { files_changed := total_files
        file_factor := file_factor
        lines_added := total_insertions
        lines_removed := total_deletions
        line_factor := line_factor
        time_factor := time_factor
        complexity_score := complexity
        complexity_factor := complexity_factor }
    files := files
    diff_stats := ds }

/-- Spec-side branch score, written exactly as the specification states the
formula: the weighted sum of the five sub-factors with the weights taken
verbatim from the configuration. Used to compare the source embedding
against the specification sentence. -/
def specBranchScore (cfg : Config) (files : Files) (ds : DiffStats)
    (minutesSince : Option ℚ) : ℚ :=
  let r := analyze_branch_need cfg files ds minutesSince
  r.factors.file_factor * cfg.weights.files_changed +
  r.factors.line_factor * cfg.weights.lines_changed +
  r.factors.time_factor * cfg.weights.time_factor +
  r.factors.complexity_factor * cfg.weights.complexity +
  calculate_file_type_complexity cfg files * cfg.weights.file_types

/-- Branch metadata consumed by the convergence analysis (_get_branch_info
result). Elapsed wall-clock quantities are passed as already computed
differences: age_hours is none exactly when creation_time is None in the
source, hours_since_last is none exactly when last_commit_time is None. -/
structure BranchInfo where
  name : String
  age_hours : Option ℚ
  hours_since_last : Option ℚ
  commit_count : ℕ
  is_behind_main : Bool
deriving Repr, DecidableEq

/-- Rendering of a number inside a reason string. The source formats with
f-string precision specifiers; no claim depends on the rendered digits, so
the default rational rendering is used. -/
def fmtQ (q : ℚ) : String := toString q

/-- Age contribution of the convergence score with its reason strings
(vibe_brancher.py lines 448-457). The source tests age > 24 first and the
age > 168 arm only in the elif. -/
def ageStep (age_hours : Option ℚ) : ℚ × List String :=
  match age_hours with
  | none => (0, [])
  | some a =>
      if 24 < a then (3/10, ["Branch is " ++ fmtQ a ++ " hours old"])
      else if 168 < a then
        (1/2, ["Branch is " ++ fmtQ (a/24) ++ " days old - consider merging"])
      else (0, [])

/-- Commit-count contribution of the convergence score (vibe_brancher.py
lines 459-466). The source tests commit_count >= 5 first and the >= 10 arm
only in the elif. -/
def commitStep (commit_count : ℕ) : ℚ × List String :=
  if 5 ≤ commit_count then
    (1/5, ["Has " ++ toString commit_count ++ " commits - substantial work"])
  else if 10 ≤ commit_count then
    (3/10, ["Has " ++ toString commit_count ++ " commits - significant feature"])
  else (0, [])

/-- Stability contribution of the convergence score (vibe_brancher.py lines
468-478). -/
def stabilityStep (hours_since_last : Option ℚ) : ℚ × List String :=
  match hours_since_last with
  | none => (0, [])
  | some h =>
      if 2 < h then
        (1/5, ["No commits for " ++ fmtQ h ++ " hours - appears stable"])
      else if 24 < h then
        (2/5, ["No commits for " ++ fmtQ (h/24) ++ " days - likely complete"])
      else (0, [])

/-- Behind-main contribution (vibe_brancher.py lines 481-483). -/
def behindStep (is_behind_main : Bool) : ℚ × List String :=
  if is_behind_main then
    (-(1/5), ["Branch is behind main - needs updating before merge"])
  else (0, [])

/-- Uncommitted-changes contribution (vibe_brancher.py lines 486-494). -/
def cleanStep (total_current_files : ℕ) : ℚ × List String :=
  if total_current_files = 0 then (3/10, ["No uncommitted changes - clean state"])
  else (-(1/10), ["Has " ++ toString total_current_files ++ " uncommitted changes"])

/-- Result of analyze_branch_convergence. The source returns a dict whose
keys differ between the early-return and the feature-branch path; absent
keys are modelled as none. -/
structure ConvergenceResult where
  should_merge : Bool
  reason : Option String
  convergence_score : Option ℚ
  reasons : Option (List String)
  branch_info : Option BranchInfo
deriving Repr, DecidableEq

/-- Embeds analyze_branch_convergence (vibe_brancher.py lines 437-503),
given the branch metadata and the current working-tree status. -/
def analyze_branch_convergence (bi : BranchInfo) (current : Files) :
    ConvergenceResult :=
  if bi.name = "" ∨ bi.name = "main" then
    { should_merge := false
      reason := some "Not on a feature branch"
      convergence_score := none
      reasons := none
      branch_info := none }
  else
    let s1 := ageStep bi.age_hours
    let s2 := commitStep bi.commit_count
    let s3 := stabilityStep bi.hours_since_last
    let s4 := behindStep bi.is_behind_main
    let s5 := cleanStep (totalChangedFiles current)
    let score := s1.1 + s2.1 + s3.1 + s4.1 + s5.1
    { should_merge := decide ((6/10 : ℚ) ≤ score)
      reason := none
      convergence_score := some score
      reasons := some (s1.2 ++ s2.2 ++ s3.2 ++ s4.2 ++ s5.2)
      branch_info := some bi }

/-- Mutating git commands a function issues, recorded in traces. Read-only
commands (status, diff, log, branch listings) are not traced: the claims
quantify only over checkout, staging and commit commands. -/
inductive GitCmd where
  | checkout (branch : String)
  | checkoutNewBranch (branch : String)
  | add
  | commit (message : String)
deriving Repr, DecidableEq

/-- Oracle for _get_vibe_score (visualizer_api.py lines 177-205): the
outcomes of the external steps the function performs, fixed up front.
current_branch is what _get_current_branch returns (that helper catches its
own errors and never raises). scorer_outcome describes running the vibe
brancher subprocess and parsing its stdout: error () means an exception is
raised there (OSError from subprocess, or ValueError from float());
ok none means stdout has no Branch Score line; ok (some s) means score s
was parsed. -/
structure VibeScoreOracle where
  current_branch : String
  checkout_target_ok : Bool
  scorer_outcome : Except Unit (Option ℚ)
  checkout_back_ok : Bool

/-- Embeds _get_vibe_score (visualizer_api.py lines 177-205). Returns the
score together with the trace of checkout commands issued (a failed
checkout is still issued, hence traced). The single except clause catches
every exception and returns 0.0; there is no finally, so the restoring
checkout is only reached on the straight-line path. -/
def get_vibe_score (o : VibeScoreOracle) (branch_name : String) :
    ℚ × List GitCmd :=
  if ¬ o.checkout_target_ok then
    (0, [GitCmd.checkout branch_name])
  else
    match o.scorer_outcome with
    | .error _ => (0, [GitCmd.checkout branch_name])
    | .ok r =>
        let score := r.getD 0
        if ¬ o.checkout_back_ok then
          (0, [GitCmd.checkout branch_name, GitCmd.checkout o.current_branch])
        else
          (score, [GitCmd.checkout branch_name, GitCmd.checkout o.current_branch])

/-- Status with no entries at all. -/
def emptyFiles : Files := ⟨[], [], [], [], []⟩

/-- Diff statistics with all counts zero. -/
def zeroStats : DiffStats := ⟨⟨0, 0, 0⟩, ⟨0, 0, 0⟩⟩

/-- Scenario input for C4: exactly one untracked .py file. -/
def c4files : Files := ⟨[], [], [], [], ["script.py"]⟩

/-- Counterexample input for C5: nonzero diff statistics. -/
def c5stats : DiffStats := ⟨⟨0, 0, 0⟩, ⟨1, 100, 0⟩⟩

/-- Counterexample configuration for C7: a user file-type weight above 1. -/
def c7cfg : Config := { defaultConfig with file_type_weights := [(".py", 2)] }

/-- Counterexample input for C7: one .py file. -/
def c7files : Files := ⟨[], [], [], [], ["a.py"]⟩

/-- Counterexample branch metadata for C2: 200 hours old, 12 commits. -/
def c2info : BranchInfo := ⟨"feature/x", some 200, none, 12, false⟩

/-- Counterexample oracle for C3: the target checkout succeeds and the
scoring step raises. -/
def c3oracle : VibeScoreOracle := ⟨"main", true, .error (), true⟩

/-- Replacement of underscores and spaces by dashes, as the chained
str.replace calls in suggest_branch_name perform. -/
def sanitizeName (s : String) : String :=
  String.mk (s.toList.map (fun c => if c = '_' ∨ c = ' ' then '-' else c))

/-- Embeds suggest_branch_name (vibe_brancher.py lines 281-304), applied to
the files of the analysis result. now_str stands for the formatted current
time used when include_timestamp is set. -/
def suggest_branch_name (cfg : Config) (files : Files) (now_str : String) :
    String :=
  let all_files := allScoredFiles files
  let feature_name :=
    match all_files with
    | [] => "changes"
    | main_file :: _ => sanitizeName (pyLower (pyStem main_file))
  let branch_name := cfg.branch_naming.pfx ++ cfg.branch_naming.separator ++
    feature_name
  if cfg.branch_naming.include_timestamp then branch_name ++ "-" ++ now_str
  else branch_name

/-- Embeds _generate_simple_commit_message (vibe_brancher.py lines 377-388).
The diff statistics argument is kept because the source computes totals from
it, although they do not influence the returned message. -/
def generate_simple_commit_message (files : Files) (ds : DiffStats) : String :=
  let total_files := totalChangedFiles files
  if total_files = 1 then
    "update " ++ pyStem ((allScoredFiles files).getD 0 "")
  else
    "update " ++ toString total_files ++ " files"

/-- Oracle for save_progress (vibe_brancher.py lines 336-371): repository
state and success of each git command it may issue. status_ok covers the
status reads (a failing read raises RuntimeError inside the try block);
branch_exists and checkout_b_ok drive create_branch, whose own failures are
caught inside create_branch and surface only as a false return. -/
structure SaveOracle where
  files : Files
  diff_stats : DiffStats
  minutesSince : Option ℚ
  status_ok : Bool
  branch_exists : Bool
  checkout_b_ok : Bool
  add_ok : Bool
  commit_ok : Bool
  now_str : String

/-- Embeds create_branch (vibe_brancher.py lines 306-324): reports failure
when the branch already exists or the checkout fails, catching the
RuntimeError internally. The branch-list read failing raises the same
caught RuntimeError as a failing checkout and is covered by
checkout_b_ok = false. -/
def create_branch (o : SaveOracle) (name : String) : Bool × List GitCmd :=
  if o.branch_exists then (false, [])
  else if o.checkout_b_ok then (true, [GitCmd.checkoutNewBranch name])
  else (false, [GitCmd.checkoutNewBranch name])

/-- Embeds auto_branch_if_needed (vibe_brancher.py lines 326-334). The
status and diff reads inside analyze_branch_need can raise RuntimeError,
which this function does not catch (error ()); otherwise it creates the
suggested branch when the analysis recommends it. -/
def auto_branch_if_needed (cfg : Config) (o : SaveOracle) :
    Except Unit (Bool × List GitCmd) :=
  if ¬ o.status_ok then .error ()
  else
    let analysis := analyze_branch_need cfg o.files o.diff_stats o.minutesSince
    if analysis.should_branch then
      .ok (create_branch o (suggest_branch_name cfg o.files o.now_str))
    else .ok (false, [])

/-- Embeds save_progress (vibe_brancher.py lines 336-371): auto-branch,
re-read status, no-op success on a clean tree, otherwise stage everything
and commit; every RuntimeError raised inside the try block is caught and
reported as a false return, so the function is total with a Bool result. -/
def save_progress (cfg : Config) (o : SaveOracle) (description : Option String) :
    Bool × List GitCmd :=
  match auto_branch_if_needed cfg o with
  | .error _ => (false, [])
  | .ok (_, tr) =>
      if ¬ o.status_ok then (false, tr)
      else
        let total := totalChangedFiles o.files
        if total = 0 then (true, tr)
        else
          let msg := description.getD (generate_simple_commit_message o.files o.diff_stats)
          if ¬ o.add_ok then (false, tr ++ [GitCmd.add])
          else if ¬ o.commit_ok then (false, tr ++ [GitCmd.add, GitCmd.commit msg])
          else (true, tr ++ [GitCmd.add, GitCmd.commit msg])

/-- Splits a character list on a separator character, keeping empty groups,
as str.split with an explicit separator does. -/
def splitCharsOn (sep : Char) (cs : List Char) : List (List Char) :=
  cs.foldr
    (fun c acc =>
      match acc with
      | [] => if c = sep then [[], []] else [[c]]
      | g :: rest => if c = sep then [] :: g :: rest else (c :: g) :: rest)
    [[]]

/-- str.split of a string on the newline character. -/
def splitLines (s : String) : List String :=
  (splitCharsOn (Char.ofNat 10) s.toList).map String.mk

/-- str.split of a string on the tab character. -/
def splitTabs (s : String) : List String :=
  (splitCharsOn (Char.ofNat 9) s.toList).map String.mk

/-- Whitespace trimming of a character list, as str.strip performed by
int() on its argument. -/
def trimChars (cs : List Char) : List Char :=
  ((cs.dropWhile Char.isWhitespace).reverse.dropWhile Char.isWhitespace).reverse

/-- Value of a decimal digit string. -/
def digitsToNat (ds : List Char) : ℕ :=
  ds.foldl (fun n c => 10 * n + (c.toNat - 48)) 0

/-- Models the Python int() constructor on a string: strips surrounding
whitespace, accepts an optional sign followed by decimal digits, and fails
(ValueError) otherwise. Underscore digit grouping, which Python also
accepts, is not modelled; no claim evaluates int() on such input. -/
def pyInt (s : String) : Option Int :=
  match trimChars s.toList with
  | [] => none
  | c :: rest =>
      let sd : Int × List Char :=
        if c = '-' then (-1, rest)
        else if c = '+' then (1, rest)
        else (1, c :: rest)
      if sd.2 ≠ [] ∧ sd.2.all Char.isDigit then
        some (sd.1 * (digitsToNat sd.2 : ℤ))
      else none

/-- Processes one numeric field of a numstat line, following the guarded
additions of _get_diff_stats (vibe_brancher.py lines 149-152): the literal
dash leaves the count unchanged, any other field goes through int(), which
raises ValueError (error ()) when the field is not an integer literal. -/
def numstatField (acc : ℤ) (f : String) : Except Unit ℤ :=
  if f = "-" then .ok acc
  else
    match pyInt f with
    | none => .error ()
    | some v => .ok (acc + v)

/-- Processes one numstat line, following the loop body of _get_diff_stats
(vibe_brancher.py lines 144-152): empty lines are skipped, a line with
fewer than three tab-separated parts is skipped, otherwise the file count
is incremented and each of the first two fields is added to the line counts
through numstatField, the insertions field first as in the source. -/
def addNumstatLine (acc : DiffRecord) (line : String) : Except Unit DiffRecord :=
  if line = "" then .ok acc
  else
    let parts := splitTabs line
    if 3 ≤ parts.length then
      match numstatField acc.insertions (parts.getD 0 "") with
      | .error e => .error e
      | .ok ins =>
          match numstatField acc.deletions (parts.getD 1 "") with
          | .error e => .error e
          | .ok dels => .ok ⟨acc.files + 1, ins, dels⟩
    else .ok acc

/-- Parses one side (staged or unstaged) of the numstat output, following
_get_diff_stats: empty output contributes zeros, otherwise the output is
split into lines and folded through addNumstatLine. -/
def parse_numstat_side (output : String) : Except Unit DiffRecord :=
  if output = "" then .ok ⟨0, 0, 0⟩
  else (splitLines output).foldlM addNumstatLine ⟨0, 0, 0⟩

/-- Embeds _get_diff_stats (vibe_brancher.py lines 133-172). Each side
catches the RuntimeError of its git diff command (leaving that record at
zero), but a ValueError raised by int() during parsing is not caught and
propagates out of the whole function. -/
def get_diff_stats (staged unstaged : Except Unit String) :
    Except Unit DiffStats :=
  do
    let s ←
      match staged with
      | .error _ => Except.ok (⟨0, 0, 0⟩ : DiffRecord)
      | .ok out => parse_numstat_side out
    let u ←
      match unstaged with
      | .error _ => Except.ok (⟨0, 0, 0⟩ : DiffRecord)
      | .ok out => parse_numstat_side out
    Except.ok ⟨s, u⟩

/-- Propositional well-formedness of a numstat numeric field: the literal
dash or a nonempty decimal digit string. -/
def GoodField (s : String) : Prop :=
  s = "-" ∨ (s.toList ≠ [] ∧ ∀ c ∈ s.toList, c.isDigit)

/-- Decidability of GoodField, so witnesses evaluate on concrete input. -/
instance (s : String) : Decidable (GoodField s) :=
  inferInstanceAs (Decidable (s = "-" ∨ (s.toList ≠ [] ∧ ∀ c ∈ s.toList, c.isDigit)))

/-- Witness oracle for C8: clean working tree, healthy git. -/
def c8cleanOracle : SaveOracle :=
  ⟨emptyFiles, zeroStats, some 0, true, false, true, true, true, "ts"⟩

/-- Witness oracle for C8, non-clean side: one untracked file, healthy git,
score below the branching threshold. -/
def c8dirtyOracle : SaveOracle :=
  ⟨c4files, zeroStats, some 0, true, false, true, true, true, "ts"⟩

/-- C1: the branch score returned by analyze_branch_need is exactly the
weighted sum fileFactor*w.files_changed + lineFactor*w.lines_changed +
timeFactor*w.time_factor + complexityFactor*w.complexity +
typeComplexity*w.file_types with the weights taken verbatim from the
configuration, and should_branch is true exactly when this score is at
least 0.6. -/
theorem C1_branch_score_formula (cfg : Config) (files : Files)
    (ds : DiffStats) (minutesSince : Option ℚ) :
    (analyze_branch_need cfg files ds minutesSince).branch_score =
      specBranchScore cfg files ds minutesSince ∧
    ((analyze_branch_need cfg files ds minutesSince).should_branch = true ↔
      (6/10 : ℚ) ≤ (analyze_branch_need cfg files ds minutesSince).branch_score) := by
  refine ⟨rfl, ?_⟩
  simp [analyze_branch_need]

/-- C6: the time factor equals 1.0 whenever there is no prior commit, for
every configuration; otherwise it equals
min(minutes since last commit / thresholds.time_minutes, 1). -/
theorem C6_time_factor (cfg : Config) (files : Files) (ds : DiffStats)
    (m : ℚ) :
    (analyze_branch_need cfg files ds none).factors.time_factor = 1 ∧
    (analyze_branch_need cfg files ds (some m)).factors.time_factor =
      min (m / cfg.thresholds.time_minutes) 1 := by
  exact ⟨rfl, rfl⟩

/-- Helper: the default value for unknown extensions and every configured
value in a weight table bounded by 1 keep the looked-up weight at most 1. -/
theorem lookup_weight_le_one (l : List (String × ℚ)) (ext : String)
    (h : ∀ p ∈ l, p.2 ≤ 1) :
    ((List.lookup ext l).getD (1/2)) ≤ 1 := by
  induction l with
  | nil => norm_num [List.lookup]
  | cons hd tl ih =>
      rcases hd with ⟨k, v⟩
      by_cases hk : ext = k
      · subst hk
        simp only [List.lookup, beq_self_eq_true, Option.getD_some]
        exact h (ext, v) (List.mem_cons_self _ _)
      · have hbeq : (ext == k) = false := beq_eq_false_iff_ne.mpr hk
        simp only [List.lookup, hbeq]
        exact ih (fun p hp => h p (List.mem_cons_of_mem _ hp))

/-- Helper: every weight in the default file-type table is at most 1, hence
so is every looked-up weight. -/
theorem fileTypeWeight_default_le_one (ext : String) :
    fileTypeWeight defaultConfig ext ≤ 1 := by
  refine lookup_weight_le_one _ ext ?_
  intro p hp
  simp only [defaultConfig] at hp
  fin_cases hp <;> norm_num

/-- Helper: the number of changed files equals the length of the list of
scored files. -/
theorem totalChangedFiles_eq_length (files : Files) :
    totalChangedFiles files = (allScoredFiles files).length := by
  simp [totalChangedFiles, allScoredFiles, Nat.add_assoc]

/-- Helper: under the default configuration the file-type complexity is a
mean of weights bounded by 1, hence at most 1. -/
theorem type_complexity_default_le_one (files : Files) :
    calculate_file_type_complexity defaultConfig files ≤ 1 := by
  unfold calculate_file_type_complexity
  by_cases h : (allScoredFiles files).length = 0
  · simp [h]
  · simp only [h, if_false]
    rw [div_le_one (by exact_mod_cast Nat.pos_of_ne_zero h)]
    have hb := List.sum_le_card_nsmul
      ((allScoredFiles files).map (fun f => fileTypeWeight defaultConfig (pyLower (pySuffix f))))
      1 ?_
    · simpa [List.length_map, nsmul_eq_mul] using hb
    · intro x hx
      simp only [List.mem_map] at hx
      obtain ⟨f, _, rfl⟩ := hx
      exact fileTypeWeight_default_le_one _

/-- C4 counterexample: for a repository with exactly one untracked .py file,
no prior commits, zero diff statistics and the default configuration,
analyze_branch_need returns should_branch = false, not true as claimed: the
literal formula gives 0.2*0.3 + 0 + 1.0*0.2 + (2.4/7)*0.15 + 1.0*0.1 =
72/175, below the 0.6 threshold. -/
theorem C4_counterexample :
    (analyze_branch_need defaultConfig c4files zeroStats none).should_branch = false := by
  have h : calculate_file_type_complexity defaultConfig c4files = 1 := by
    simp [calculate_file_type_complexity, allScoredFiles, c4files]; rfl
  simp only [analyze_branch_need, calculate_complexity_score, calculate_time_factor, h]
  simp only [totalChangedFiles, c4files, zeroStats, defaultConfig]
  norm_num

/-- C4 amended: in the scenario with one untracked .py file, no prior
commits, zero diff statistics and the default configuration, the branch
score is exactly 72/175 (about 0.411) and should_branch is false. -/
theorem C4_scenario_result :
    (analyze_branch_need defaultConfig c4files zeroStats none).branch_score = 72/175 ∧
    (analyze_branch_need defaultConfig c4files zeroStats none).should_branch = false := by
  have h : calculate_file_type_complexity defaultConfig c4files = 1 := by
    simp [calculate_file_type_complexity, allScoredFiles, c4files]; rfl
  constructor <;>
    · simp only [analyze_branch_need, calculate_complexity_score, calculate_time_factor, h]
      simp only [totalChangedFiles, c4files, zeroStats, defaultConfig]
      norm_num

/-- C5 counterexample: with an empty status but diff statistics reporting
100 inserted lines, the line factor of the analysis is 1, not 0: the line
factor is computed from the diff statistics alone and does not vanish just
because the three changed-file sets are empty. -/
theorem C5_counterexample :
    (analyze_branch_need defaultConfig emptyFiles c5stats (some 0)).factors.line_factor = 1 ∧
    ¬ ((analyze_branch_need defaultConfig emptyFiles c5stats (some 0)).factors.file_factor = 0 ∧
       (analyze_branch_need defaultConfig emptyFiles c5stats (some 0)).factors.line_factor = 0) := by
  have h1 : (analyze_branch_need defaultConfig emptyFiles c5stats (some 0)).factors.line_factor = 1 := by
    simp only [analyze_branch_need]
    simp only [c5stats, defaultConfig]
    norm_num
  refine ⟨h1, fun hc => ?_⟩
  rw [h1] at hc
  exact one_ne_zero hc.2

/-- C5 amended: with 0 changed files (empty modified, added and untracked
sets) the file factor is 0 for every diff statistics and every configuration
with a positive files_changed threshold; the line factor is independent of
the status and equals min((insertions+deletions)/(lines_added+lines_removed), 1)
computed from the diff statistics, so it is 0 only when the diff statistics
contribute no line changes. -/
theorem C5_amended (cfg : Config) (files : Files) (ds : DiffStats)
    (t : Option ℚ) (h0 : totalChangedFiles files = 0)
    (ht : 0 < cfg.thresholds.files_changed) :
    (analyze_branch_need cfg files ds t).factors.file_factor = 0 ∧
    (analyze_branch_need cfg files ds t).factors.line_factor =
      min ((((ds.staged.insertions + ds.unstaged.insertions : Int) : ℚ) +
            ((ds.staged.deletions + ds.unstaged.deletions : Int) : ℚ)) /
           (cfg.thresholds.lines_added + cfg.thresholds.lines_removed)) 1 := by
  constructor
  · simp only [analyze_branch_need, h0]
    norm_num
  · rfl

/-- C5 witness: the amended statement evaluated at the empty status, zero
diff statistics and the default configuration. -/
theorem C5_amended_witness :
    (analyze_branch_need defaultConfig emptyFiles zeroStats none).factors.file_factor = 0 ∧
    (analyze_branch_need defaultConfig emptyFiles zeroStats none).factors.line_factor =
      min ((((zeroStats.staged.insertions + zeroStats.unstaged.insertions : Int) : ℚ) +
            ((zeroStats.staged.deletions + zeroStats.unstaged.deletions : Int) : ℚ)) /
           (defaultConfig.thresholds.lines_added + defaultConfig.thresholds.lines_removed)) 1 :=
  C5_amended defaultConfig emptyFiles zeroStats none rfl (by norm_num [defaultConfig])

/-- C7 counterexample: with a user configuration assigning weight 2 to the
.py extension and a single .py file, the file-type complexity term is 2,
not clamped to at most 1, and it enters the weighted combination unclamped:
the branch score is 97/175, which includes the unclamped 2 * 0.1
contribution. -/
theorem C7_counterexample :
    calculate_file_type_complexity c7cfg c7files = 2 ∧
    ¬ (calculate_file_type_complexity c7cfg c7files ≤ 1) ∧
    (analyze_branch_need c7cfg c7files zeroStats none).branch_score = 97/175 := by
  have h : calculate_file_type_complexity c7cfg c7files = 2 := by
    simp [calculate_file_type_complexity, allScoredFiles, c7files]; rfl
  refine ⟨h, by rw [h]; norm_num, ?_⟩
  simp only [analyze_branch_need, calculate_complexity_score, calculate_time_factor, h]
  simp only [totalChangedFiles, c7files, zeroStats, c7cfg, defaultConfig]
  norm_num

/-- C7 amended: the file, line, time and complexity factors are each clamped
to at most 1 before weighting, for every input and configuration; the
file-type complexity term is not clamped, but under the default
configuration it is a mean of per-extension weights bounded by 1 and hence
at most 1 (a user configuration with an extension weight above 1 makes it
exceed 1). -/
theorem C7_amended (cfg : Config) (files : Files) (ds : DiffStats)
    (t : Option ℚ) :
    (analyze_branch_need cfg files ds t).factors.file_factor ≤ 1 ∧
    (analyze_branch_need cfg files ds t).factors.line_factor ≤ 1 ∧
    (analyze_branch_need cfg files ds t).factors.time_factor ≤ 1 ∧
    (analyze_branch_need cfg files ds t).factors.complexity_factor ≤ 1 ∧
    calculate_file_type_complexity defaultConfig files ≤ 1 := by
  refine ⟨min_le_right _ _, min_le_right _ _, ?_, min_le_right _ _,
    type_complexity_default_le_one files⟩
  show calculate_time_factor cfg t ≤ 1
  cases t with
  | none => simp [calculate_time_factor]
  | some m => exact min_le_right _ _

/-- C2 counterexample: a branch aged 200 hours with 12 commits receives only
the +0.3 age bonus and only the +0.2 commit bonus. With an otherwise clean
state its convergence score is 0.3 + 0.2 + 0.3 = 4/5, not the value the
stacking claim predicts: the sum of the age and commit contributions is
1/2, not 0.3 + 0.5 + 0.2 + 0.3 = 13/10, because both larger bonuses sit in
elif arms that are only tested when the first test already failed. -/
theorem C2_counterexample :
    (ageStep (some 200)).1 = 3/10 ∧
    (commitStep 12).1 = 1/5 ∧
    (analyze_branch_convergence c2info emptyFiles).convergence_score = some (4/5) ∧
    (ageStep (some 200)).1 + (commitStep 12).1 ≠ 3/10 + 1/2 + 1/5 + 3/10 := by
  have ha : (ageStep (some 200)).1 = 3/10 := by norm_num [ageStep]
  have hc : (commitStep 12).1 = 1/5 := by norm_num [commitStep]
  refine ⟨ha, hc, ?_, ?_⟩
  · simp only [analyze_branch_convergence, c2info]
    rw [if_neg (by decide : ¬(("feature/x" : String) = "" ∨ ("feature/x" : String) = "main"))]
    norm_num [ageStep, commitStep, stabilityStep, behindStep, cleanStep,
      totalChangedFiles, emptyFiles]
  · rw [ha, hc]; norm_num

/-- C2 amended: the age and commit bonuses do not stack. For every age above
24 hours the age contribution is exactly +0.3, and for every commit count of
at least 5 the commit contribution is exactly +0.2; moreover the +0.5 and
+0.3 elif arms are unreachable, so the age contribution is always 0 or 3/10
and the commit contribution always 0 or 1/5. In particular a branch aged 200
hours with 12 commits receives exactly +0.3 and +0.2 from these factors. -/
theorem C2_amended (a : ℚ) (c : ℕ) (ha : 24 < a) (hc : 5 ≤ c) :
    (ageStep (some a)).1 = 3/10 ∧
    (commitStep c).1 = 1/5 ∧
    (∀ b : ℚ, (ageStep (some b)).1 = 0 ∨ (ageStep (some b)).1 = 3/10) ∧
    (∀ k : ℕ, (commitStep k).1 = 0 ∨ (commitStep k).1 = 1/5) := by
  refine ⟨by simp [ageStep, ha], by simp [commitStep, hc], ?_, ?_⟩
  · intro b
    by_cases h1 : 24 < b
    · right; simp [ageStep, h1]
    · by_cases h2 : 168 < b
      · exact absurd (lt_trans (by norm_num) h2) h1
      · left; simp [ageStep, h1, h2]
  · intro k
    by_cases h1 : 5 ≤ k
    · right; simp [commitStep, h1]
    · by_cases h2 : 10 ≤ k
      · exact absurd (le_trans (by norm_num) h2) h1
      · left; simp [commitStep, h1, h2]

/-- C2 witness: the amended statement evaluated at age 200 hours and 12
commits. -/
theorem C2_amended_witness :
    (ageStep (some 200)).1 = 3/10 ∧ (commitStep 12).1 = 1/5 :=
  ⟨(C2_amended 200 12 (by norm_num) (by norm_num)).1,
   (C2_amended 200 12 (by norm_num) (by norm_num)).2.1⟩

/-- C3 counterexample: with an oracle where the checkout of the target
branch succeeds and the scoring step then raises, _get_vibe_score returns
0.0 and its trace contains only the checkout of the target: the checkout
back to the recorded original branch (main) is never executed, because the
bare except returns 0.0 without a finally-protected restore. -/
theorem C3_counterexample :
    get_vibe_score c3oracle "feature/x" = (0, [GitCmd.checkout "feature/x"]) ∧
    GitCmd.checkout "main" ∉ (get_vibe_score c3oracle "feature/x").2 := by
  constructor
  · rfl
  · intro hmem
    have : get_vibe_score c3oracle "feature/x" = (0, [GitCmd.checkout "feature/x"]) := rfl
    rw [this] at hmem
    simp only [List.mem_singleton] at hmem
    exact absurd (congrArg (fun c => match c with
      | GitCmd.checkout b => b
      | _ => "") hmem) (by decide)

/-- C3 amended: the restoring checkout is executed only on the straight-line
path: when the target checkout succeeds and the scoring step does not raise,
the checkout back to the recorded original branch is in the trace; but when
the scoring step between checkout and restore raises, the function swallows
the exception, returns 0.0, and issues no checkout of the original branch,
leaving the repository on the target branch. -/
theorem C3_amended (o : VibeScoreOracle) (b : String) :
    (o.checkout_target_ok = true → ∀ r : Option ℚ, o.scorer_outcome = .ok r →
       GitCmd.checkout o.current_branch ∈ (get_vibe_score o b).2) ∧
    (o.scorer_outcome = .error () → b ≠ o.current_branch →
       (get_vibe_score o b).1 = 0 ∧
       GitCmd.checkout o.current_branch ∉ (get_vibe_score o b).2) := by
  constructor
  · intro hok r hr
    simp only [get_vibe_score, hok, hr, not_true, if_false]
    by_cases hb : o.checkout_back_ok <;> simp [hb]
  · intro herr hb
    rcases hco : o.checkout_target_ok with _ | _
    · refine ⟨by simp [get_vibe_score, hco], ?_⟩
      simp only [get_vibe_score, hco]
      simp [GitCmd.checkout.injEq, Ne.symm hb]
    · refine ⟨by simp [get_vibe_score, hco, herr], ?_⟩
      simp only [get_vibe_score, hco, herr]
      simp [GitCmd.checkout.injEq, Ne.symm hb]

/-- C3 witness: the amended statement evaluated on a succeeding oracle
(restore present in the trace) and on the raising oracle (restore absent). -/
theorem C3_amended_witness :
    GitCmd.checkout "main" ∈
      (get_vibe_score ⟨"main", true, .ok (some 1), true⟩ "feature/x").2 ∧
    GitCmd.checkout "main" ∉ (get_vibe_score c3oracle "feature/x").2 :=
  ⟨(C3_amended ⟨"main", true, .ok (some 1), true⟩ "feature/x").1 rfl (some 1) rfl,
   ((C3_amended c3oracle "feature/x").2 rfl (by decide)).2⟩

/-- C10: when the analyzed branch name is empty or main, the convergence
analysis returns should_merge = false together with only a reason string:
the convergence_score, reasons and branch_info fields are absent, whereas
every result for a feature branch carries those three fields and no reason
string. -/
theorem C10_result_shape (bi : BranchInfo) (current : Files)
    (h : bi.name = "" ∨ bi.name = "main") :
    analyze_branch_convergence bi current =
      { should_merge := false
        reason := some "Not on a feature branch"
        convergence_score := none
        reasons := none
        branch_info := none } ∧
    ∀ bj : BranchInfo, ¬ (bj.name = "" ∨ bj.name = "main") →
      (analyze_branch_convergence bj current).reason = none ∧
      (analyze_branch_convergence bj current).convergence_score.isSome = true ∧
      (analyze_branch_convergence bj current).reasons.isSome = true ∧
      (analyze_branch_convergence bj current).branch_info = some bj := by
  constructor
  · rw [analyze_branch_convergence, if_pos h]
  · intro bj hbj
    rw [analyze_branch_convergence, if_neg hbj]
    exact ⟨rfl, rfl, rfl, rfl⟩

/-- C10 witness: the shape statement evaluated at the branch named main and
at the feature branch of the C2 input. -/
theorem C10_witness :
    analyze_branch_convergence ⟨"main", none, none, 0, false⟩ emptyFiles =
      { should_merge := false
        reason := some "Not on a feature branch"
        convergence_score := none
        reasons := none
        branch_info := none } ∧
    (analyze_branch_convergence c2info emptyFiles).reasons.isSome = true :=
  ⟨(C10_result_shape ⟨"main", none, none, 0, false⟩ emptyFiles (Or.inr rfl)).1,
   ((C10_result_shape ⟨"main", none, none, 0, false⟩ emptyFiles (Or.inr rfl)).2
      c2info (by decide)).2.2.1⟩

/-- Helper: create_branch issues no staging or commit command, whatever the
oracle outcome. -/
theorem create_branch_no_add_commit (o : SaveOracle) (name : String) :
    GitCmd.add ∉ (create_branch o name).2 ∧
    ∀ m, GitCmd.commit m ∉ (create_branch o name).2 := by
  unfold create_branch
  split_ifs <;> simp

/-- Helper: when the status reads succeed, auto_branch_if_needed returns
normally and its trace contains no staging or commit command. -/
theorem auto_branch_trace (cfg : Config) (o : SaveOracle)
    (hs : o.status_ok = true) :
    ∃ b tr, auto_branch_if_needed cfg o = .ok (b, tr) ∧
      GitCmd.add ∉ tr ∧ ∀ m, GitCmd.commit m ∉ tr := by
  unfold auto_branch_if_needed
  rw [hs]
  simp only [not_true_eq_false, if_false]
  by_cases hb : (analyze_branch_need cfg o.files o.diff_stats o.minutesSince).should_branch
  · simp only [hb, if_true]
    exact ⟨_, _, rfl, (create_branch_no_add_commit o _).1,
      (create_branch_no_add_commit o _).2⟩
  · simp only [Bool.not_eq_true] at hb
    simp only [hb, Bool.false_eq_true, if_false]
    exact ⟨false, [], rfl, by simp, by simp⟩

/-- C8: save_progress on a clean tree (0 files in modified, added and
untracked) returns success without issuing the staging or commit commands;
on a non-clean tree with healthy git it stages all changes and commits with
the caller-supplied message or the auto-generated one; the embedding is a
total function into a success flag, mirroring the try/except that keeps
every RuntimeError from escaping this boundary. -/
theorem C8_save_progress (cfg : Config) (o : SaveOracle) (d : Option String)
    (hs : o.status_ok = true) :
    (totalChangedFiles o.files = 0 →
      (save_progress cfg o d).1 = true ∧
      GitCmd.add ∉ (save_progress cfg o d).2 ∧
      ∀ m, GitCmd.commit m ∉ (save_progress cfg o d).2) ∧
    (totalChangedFiles o.files ≠ 0 → o.add_ok = true → o.commit_ok = true →
      (save_progress cfg o d).1 = true ∧
      GitCmd.add ∈ (save_progress cfg o d).2 ∧
      GitCmd.commit (d.getD (generate_simple_commit_message o.files o.diff_stats))
        ∈ (save_progress cfg o d).2) ∧
    (∀ f : String, allScoredFiles o.files = [f] →
      generate_simple_commit_message o.files o.diff_stats = "update " ++ pyStem f) ∧
    (totalChangedFiles o.files ≠ 1 →
      generate_simple_commit_message o.files o.diff_stats =
        "update " ++ toString (totalChangedFiles o.files) ++ " files") := by
  obtain ⟨b, tr, heq, hadd, hcommit⟩ := auto_branch_trace cfg o hs
  refine ⟨?_, ?_, ?_, ?_⟩
  · intro h0
    simp only [save_progress, heq, hs, not_true_eq_false, if_false, h0, if_pos]
    exact ⟨trivial, hadd, hcommit⟩
  · intro h0 ha hc
    simp only [save_progress, heq, hs, not_true_eq_false, if_false, ha, hc]
    rw [if_neg h0]
    refine ⟨rfl, ?_, ?_⟩ <;> simp [List.mem_append]
  · intro f hf
    have h1 : totalChangedFiles o.files = 1 := by
      rw [totalChangedFiles_eq_length, hf]; rfl
    simp only [generate_simple_commit_message, h1, if_pos, hf]
    rfl
  · intro h1
    simp only [generate_simple_commit_message, if_neg h1]

/-- C8 witness: on the clean oracle save_progress succeeds with no staging
or commit command; on the oracle with one untracked file it commits with
the generated message. -/
theorem C8_witness :
    (save_progress defaultConfig c8cleanOracle none).1 = true ∧
    GitCmd.add ∉ (save_progress defaultConfig c8cleanOracle none).2 ∧
    GitCmd.commit "update script" ∈ (save_progress defaultConfig c8dirtyOracle none).2 := by
  have hclean := (C8_save_progress defaultConfig c8cleanOracle none rfl).1 rfl
  have hmsg : (none : Option String).getD
      (generate_simple_commit_message c8dirtyOracle.files c8dirtyOracle.diff_stats) =
      "update script" := rfl
  have hdirty := ((C8_save_progress defaultConfig c8dirtyOracle none rfl).2.1
    (by decide) rfl rfl).2.2
  rw [hmsg] at hdirty
  exact ⟨hclean.1, hclean.2.1, hdirty⟩

/-- Helper: a digit character is not whitespace. -/
theorem isDigit_not_whitespace (c : Char) (h : c.isDigit = true) :
    c.isWhitespace = false := by
  by_contra hw
  rw [Bool.not_eq_false] at hw
  simp only [Char.isWhitespace, Bool.or_eq_true, decide_eq_true_eq] at hw
  rcases hw with ((rfl | rfl) | rfl) | rfl <;> exact absurd h (by decide)

/-- Helper: dropping whitespace from an all-digit list is the identity. -/
theorem dropWhile_whitespace_digits (l : List Char)
    (h : ∀ c ∈ l, c.isDigit = true) :
    l.dropWhile Char.isWhitespace = l := by
  cases l with
  | nil => rfl
  | cons a t =>
      rw [List.dropWhile_cons, isDigit_not_whitespace a (h a (List.mem_cons_self a t))]
      simp

/-- Helper: trimming an all-digit list is the identity. -/
theorem trimChars_digits (l : List Char) (h : ∀ c ∈ l, c.isDigit = true) :
    trimChars l = l := by
  unfold trimChars
  rw [dropWhile_whitespace_digits l h,
    dropWhile_whitespace_digits l.reverse
      (fun c hc => h c (List.mem_reverse.mp hc)),
    List.reverse_reverse]

/-- Helper: int() on a nonempty decimal digit string returns the nonnegative
value of the digits. -/
theorem pyInt_digits (s : String) (h1 : s.toList ≠ [])
    (h2 : ∀ c ∈ s.toList, c.isDigit = true) :
    ∃ n : ℕ, pyInt s = some (n : ℤ) := by
  unfold pyInt
  rw [trimChars_digits _ h2]
  cases hl : s.toList with
  | nil => exact absurd hl h1
  | cons c rest =>
      have hcd : c.isDigit = true := h2 c (hl ▸ List.mem_cons_self c rest)
      have hne1 : c ≠ '-' := fun he => absurd hcd (by rw [he]; decide)
      have hne2 : c ≠ '+' := fun he => absurd hcd (by rw [he]; decide)
      have hall : (c :: rest).all Char.isDigit = true := by
        rw [List.all_eq_true]
        intro x hx
        exact h2 x (hl ▸ hx)
      refine ⟨digitsToNat (c :: rest), ?_⟩
      simp [hne1, hne2, hall, List.cons_ne_nil]

/-- Helper: a line with fewer than three tab-separated parts is skipped by
the numstat loop body. -/
theorem addNumstatLine_skip (acc : DiffRecord) (line : String)
    (h : ¬ 3 ≤ (splitTabs line).length) :
    addNumstatLine acc line = .ok acc := by
  by_cases he : line = ""
  · simp only [addNumstatLine, if_pos he]
  · simp only [addNumstatLine, if_neg he, if_neg h]

/-- Helper: a line whose first two fields are both the dash contributes to
the file count only. -/
theorem addNumstatLine_dash (acc : DiffRecord) (line : String)
    (hne : line ≠ "") (h3 : 3 ≤ (splitTabs line).length)
    (h0 : (splitTabs line).getD 0 "" = "-")
    (h1 : (splitTabs line).getD 1 "" = "-") :
    addNumstatLine acc line = .ok ⟨acc.files + 1, acc.insertions, acc.deletions⟩ := by
  simp only [addNumstatLine, if_neg hne, if_pos h3, h0, h1]
  rfl

/-- Helper: a good numstat field is either the dash, leaving the count in
place, or a digit string adding a nonnegative value. -/
theorem numstatField_good (acc : ℤ) (f : String) (g : GoodField f) :
    ∃ v : ℤ, 0 ≤ v ∧ numstatField acc f = Except.ok (acc + v) := by
  rcases g with h | ⟨hne, hdig⟩
  · exact ⟨0, le_refl 0, by simp only [numstatField, if_pos h, add_zero]⟩
  · have hnd : f ≠ "-" := by
      intro he
      rw [he] at hdig
      exact absurd (hdig '-' (by decide)) (by decide)
    obtain ⟨n, hn⟩ := pyInt_digits f hne hdig
    exact ⟨(n : ℤ), Int.ofNat_nonneg n, by simp only [numstatField, if_neg hnd, hn]⟩

/-- Helper: a line with three or more tab-separated fields whose first two
fields are good increments the file count and adds nonnegative amounts to
the line counts. -/
theorem addNumstatLine_good (acc : DiffRecord) (line : String)
    (h3 : 3 ≤ (splitTabs line).length)
    (g0 : GoodField ((splitTabs line).getD 0 ""))
    (g1 : GoodField ((splitTabs line).getD 1 "")) :
    ∃ i d : ℤ, 0 ≤ i ∧ 0 ≤ d ∧
      addNumstatLine acc line =
        .ok ⟨acc.files + 1, acc.insertions + i, acc.deletions + d⟩ := by
  by_cases hne : line = ""
  · subst hne; exact absurd h3 (by decide)
  · obtain ⟨i, hi, hieq⟩ := numstatField_good acc.insertions _ g0
    obtain ⟨d, hd, hdeq⟩ := numstatField_good acc.deletions _ g1
    refine ⟨i, d, hi, hd, ?_⟩
    simp only [addNumstatLine, if_neg hne, if_pos h3, hieq, hdeq]

/-- Helper: folding the numstat loop body over lines with good fields
succeeds and preserves nonnegativity of all three counts. -/
theorem foldlM_numstat (lines : List String) (acc : DiffRecord)
    (h : ∀ line ∈ lines, line ≠ "" → 3 ≤ (splitTabs line).length →
      GoodField ((splitTabs line).getD 0 "") ∧
      GoodField ((splitTabs line).getD 1 ""))
    (hf : 0 ≤ acc.files) (hi : 0 ≤ acc.insertions) (hd : 0 ≤ acc.deletions) :
    ∃ r : DiffRecord, List.foldlM addNumstatLine acc lines = .ok r ∧
      0 ≤ r.files ∧ 0 ≤ r.insertions ∧ 0 ≤ r.deletions := by
  induction lines generalizing acc with
  | nil => exact ⟨acc, rfl, hf, hi, hd⟩
  | cons l tl ih =>
      rw [List.foldlM_cons]
      by_cases h3 : 3 ≤ (splitTabs l).length
      · by_cases hne : l = ""
        · subst hne; exact absurd h3 (by decide)
        · obtain ⟨g0, g1⟩ := h l (List.mem_cons_self _ _) hne h3
          obtain ⟨i, d, hi0, hd0, heq⟩ := addNumstatLine_good acc l h3 g0 g1
          rw [heq]
          exact ih ⟨acc.files + 1, acc.insertions + i, acc.deletions + d⟩
            (fun x hx h1 h2 => h x (List.mem_cons_of_mem _ hx) h1 h2)
            (show (0:ℤ) ≤ acc.files + 1 by omega)
            (show (0:ℤ) ≤ acc.insertions + i from add_nonneg hi hi0)
            (show (0:ℤ) ≤ acc.deletions + d from add_nonneg hd hd0)
      · rw [addNumstatLine_skip acc l h3]
        exact ih acc (fun x hx h1 h2 => h x (List.mem_cons_of_mem _ hx) h1 h2) hf hi hd

/-- C9 counterexample: numstat parsing is not total and not non-negative on
arbitrary text. A line whose insertion field is a non-numeric string other
than the dash makes int() raise, and the ValueError is not caught, so the
whole parse fails; and a field that parses as a negative integer literal is
added as-is, producing a negative insertion count. -/
theorem C9_counterexample :
    parse_numstat_side "x\t1\tf" = .error () ∧
    parse_numstat_side "-5\t1\tf" = .ok ⟨1, -5, 1⟩ ∧
    (⟨1, -5, 1⟩ : DiffRecord).insertions < 0 := by
  refine ⟨rfl, rfl, by decide⟩

/-- C9 amended: on numstat text whose lines, when they have at least three
tab-separated fields, carry first two fields that are each either the dash
or a nonempty decimal digit string (which is all git itself emits), parsing
is total and returns non-negative counts; a line with fewer than three
tab-separated fields is skipped; and a line whose numeric fields are both
the dash contributes to the file count but not to the line counts. -/
theorem C9_amended (output : String)
    (h : ∀ line ∈ splitLines output, line ≠ "" → 3 ≤ (splitTabs line).length →
      GoodField ((splitTabs line).getD 0 "") ∧
      GoodField ((splitTabs line).getD 1 "")) :
    (∃ r : DiffRecord, parse_numstat_side output = .ok r ∧
       0 ≤ r.files ∧ 0 ≤ r.insertions ∧ 0 ≤ r.deletions) ∧
    (∀ (acc : DiffRecord) (line : String), ¬ 3 ≤ (splitTabs line).length →
       addNumstatLine acc line = .ok acc) ∧
    (∀ (acc : DiffRecord) (line : String), line ≠ "" →
       3 ≤ (splitTabs line).length →
       (splitTabs line).getD 0 "" = "-" → (splitTabs line).getD 1 "" = "-" →
       addNumstatLine acc line = .ok ⟨acc.files + 1, acc.insertions, acc.deletions⟩) := by
  refine ⟨?_, addNumstatLine_skip, addNumstatLine_dash⟩
  by_cases ho : output = ""
  · refine ⟨⟨0, 0, 0⟩, ?_, le_refl 0, le_refl 0, le_refl 0⟩
    simp [parse_numstat_side, ho]
  · rw [parse_numstat_side, if_neg ho]
    exact foldlM_numstat _ _ h (le_refl 0) (le_refl 0) (le_refl 0)

/-- C9 witness: the amended statement evaluated on a three-line numstat
output with a numeric line, a binary-file dash line and a malformed short
line. -/
theorem C9_amended_witness :
    ∃ r : DiffRecord,
      parse_numstat_side "3\t1\ta.py\n-\t-\tbin.dat\nshort" = .ok r ∧
      0 ≤ r.files ∧ 0 ≤ r.insertions ∧ 0 ≤ r.deletions :=
  (C9_amended "3\t1\ta.py\n-\t-\tbin.dat\nshort" (by decide)).1
